import Mathlib

/-!
# Verification of the accessible navigation interaction controller

Shallow embedding of the enhanced `Navbar` component (the navigation
interaction controller of this repository): menu open/close state, submenu
disclosure, keyboard traversal, focus containment and active-link matching.

Source functions embedded here (names kept where Lean allows):
`openSubmenu`, `closeSubmenu`, `handleMainKeyDown`, `handleNavItemKeyDown`,
`handleSubmenuKeyDown`, `handleTrap`, the hamburger / link `onClick`
handlers, the `navLinks` default fallback and the `isActive` computation.
-/

/-- A navigation link as described by the component's prop shape:
`{label, href?, external?, children?}`.  `children` makes the link a
parent link disclosing a submenu. -/
inductive NavLink where
  | mk (label : String) (href : Option String) (external : Bool)
       (children : List NavLink)

def NavLink.label : NavLink → String
  | .mk l _ _ _ => l

def NavLink.href : NavLink → Option String
  | .mk _ h _ _ => h

def NavLink.external : NavLink → Bool
  | .mk _ _ e _ => e

def NavLink.children : NavLink → List NavLink
  | .mk _ _ _ c => c

/-- `link.children && Array.isArray(link.children) && link.children.length`:
a link is a parent link when its children array is non-empty. -/
def NavLink.hasSubmenu (l : NavLink) : Bool :=
  !l.children.isEmpty

/-- The component state relevant to the menu state machine:
`const [mobileOpen, setMobileOpen] = useState(false)` and
`const [submenuOpen, setSubmenuOpen] = useState(null)` (the open submenu
index, `none` when no submenu is open). -/
structure MenuState where
  mobileOpen : Bool
  submenuOpen : Option Nat
  deriving DecidableEq, Repr

/-- Initial state on mount: menu closed, no submenu open. -/
def initialState : MenuState := ⟨false, none⟩

/-- `const openSubmenu = useCallback((idx) => setSubmenuOpen(idx), [])`:
sets only the open-submenu index; `mobileOpen` is not written. -/
def openSubmenu (s : MenuState) (idx : Nat) : MenuState :=
  ⟨s.mobileOpen, some idx⟩

/-- `const closeSubmenu = useCallback(() => setSubmenuOpen(null), [])`. -/
def closeSubmenu (s : MenuState) : MenuState :=
  ⟨s.mobileOpen, none⟩

/-- The hamburger trigger's `onClick={() => setMobileOpen((open) => !open)}`. -/
def hamburgerToggle (s : MenuState) : MenuState :=
  ⟨!s.mobileOpen, s.submenuOpen⟩

/-- A top-level leaf link's `onClick: () => setMobileOpen(false)`
(the `linkProps` of a normal nav item): only `mobileOpen` is written. -/
def topLevelLeafClick (s : MenuState) : MenuState :=
  ⟨false, s.submenuOpen⟩

/-- A submenu child link's
`onClick={() => { setMobileOpen(false); closeSubmenu(); }}`. -/
def submenuLinkClick (_s : MenuState) : MenuState :=
  ⟨false, none⟩

/-- The default navigation structure used when `links` is empty or not
provided: Home `/`, About `/about`, Contact `/contact`. -/
def defaultNavLinks : List NavLink :=
  [NavLink.mk "Home" (some "/") false [],
   NavLink.mk "About" (some "/about") false [],
   NavLink.mk "Contact" (some "/contact") false []]

/-- The `links` prop as received: possibly absent, possibly not an array,
or an array of links. -/
inductive LinksInput where
  | absent
  | notArray
  | arr (ls : List NavLink)

/-- `const navLinks = Array.isArray(links) && links.length ? links : [...]`:
the fallback replaces an absent, non-array or empty `links` value wholesale
by the three-item default. -/
def navLinksOf : LinksInput → List NavLink
  | .arr ls => if ls.isEmpty then defaultNavLinks else ls
  | _ => defaultNavLinks

/-! ## DOM focus model

The keyboard router locates its focus targets by querying the rendered
menu list (`navMenuRef`).  We model the rendered, focus-relevant elements
of that subtree. -/

/-- A focusable element inside the navbar that the handlers may focus. -/
inductive NavElem where
  | topItem (i : Nat)
  | subItem (i : Nat) (j : Nat)
  | sentinelStart
  | sentinelEnd
  | hamburger
  deriving DecidableEq, Repr

/-- Helper for `focusables`: document-order list of elements matched by
`querySelectorAll("li > a, li > button")` inside the menu list, starting at
top-level index `i`.  Each top-level entry renders one `li > a` (leaf) or
`li > button` (parent); a parent whose submenu is open additionally renders
its children as `li > a` anchors nested right after the button. -/
def focusablesFrom (sub : Option Nat) : Nat → List NavLink → List NavElem
  | _, [] => []
  | i, l :: rest =>
    (NavElem.topItem i ::
      (if l.hasSubmenu ∧ sub = some i then
        (List.range l.children.length).map (NavElem.subItem i)
      else [])) ++ focusablesFrom sub (i + 1) rest

/-- `navMenuRef.current.querySelectorAll("li > a, li > button")` as a list
in document order, given the links and the open-submenu index.  The two
focus-trap sentinels are `li > span` elements and are not matched. -/
def focusables (links : List NavLink) (sub : Option Nat) : List NavElem :=
  focusablesFrom sub 0 links

/-- Number of children of the link at top-level index `idx`. -/
def childCount (links : List NavLink) (idx : Nat) : Nat :=
  match links[idx]? with
  | some l => l.children.length
  | none => 0

/-- Whether the submenu dropdown `[data-navsubmenu=idx]` is rendered:
the link at `idx` is a parent link and `submenuOpen === idx`. -/
def submenuRendered (links : List NavLink) (sub : Option Nat) (idx : Nat) :
    Prop :=
  (match links[idx]? with
   | some l => l.hasSubmenu
   | none => false) = true ∧ sub = some idx

instance (links : List NavLink) (sub : Option Nat) (idx : Nat) :
    Decidable (submenuRendered links sub idx) := by
  unfold submenuRendered; infer_instance

/-- `querySelectorAll('[data-navsubmenu="idx"] li a')`: the submenu's child
anchors in order, empty when the submenu is not rendered. -/
def submenuAnchors (links : List NavLink) (sub : Option Nat) (idx : Nat) :
    List NavElem :=
  if submenuRendered links sub idx then
    (List.range (childCount links idx)).map (NavElem.subItem idx)
  else []

/-- `querySelector('[data-navsubmenu="idx"] li:first-child a')`:
`null` (`none`) when the submenu is not rendered or empty. -/
def submenuFirstChildAnchor (links : List NavLink) (sub : Option Nat)
    (idx : Nat) : Option NavElem :=
  (submenuAnchors links sub idx).head?

/-- `querySelector('[data-navsubmenu="idx"] li:last-child a')`. -/
def submenuLastChildAnchor (links : List NavLink) (sub : Option Nat)
    (idx : Nat) : Option NavElem :=
  (submenuAnchors links sub idx).getLast?

/-! ## Event handlers

React state semantics: every handler that runs for one dispatched event
reads the same render-snapshot of the state; its `setMobileOpen` /
`setSubmenuOpen` calls are queued as writes and applied in order after the
event.  We model a handler's output as an optional write per state field. -/

/-- The queued `setState` writes a handler produces (`none` = field not
written). -/
structure HandlerWrites where
  mobileOpenW : Option Bool
  submenuOpenW : Option (Option Nat)
  deriving DecidableEq, Repr

def noWrites : HandlerWrites := ⟨none, none⟩

/-- Apply queued writes to a state. -/
def applyWrites (s : MenuState) (w : HandlerWrites) : MenuState :=
  ⟨w.mobileOpenW.getD s.mobileOpen, w.submenuOpenW.getD s.submenuOpen⟩

/-- Merge two handlers' writes; the later handler's write wins per field. -/
def mergeWrites (w1 w2 : HandlerWrites) : HandlerWrites :=
  ⟨(w2.mobileOpenW).orElse (fun _ => w1.mobileOpenW),
   (w2.submenuOpenW).orElse (fun _ => w1.submenuOpenW)⟩

/-- `handleMainKeyDown` (attached to the `nav` and the menu `ul`):
on Escape, close the open submenu if any; otherwise, if the mobile menu is
open, close it and schedule focus back to the hamburger trigger.  The
returned Bool records whether the hamburger focus move was scheduled. -/
def handleMainKeyDown (s : MenuState) (key : String) :
    HandlerWrites × Bool :=
  if key = "Escape" then
    if s.submenuOpen ≠ none then (⟨none, some none⟩, false)
    else if s.mobileOpen then (⟨some false, none⟩, true)
    else (noWrites, false)
  else (noWrites, false)

/-- Effect of `handleNavItemKeyDown`: queued writes, an immediate focus
move (if any), and whether a deferred (setTimeout) focus move into the
submenu was scheduled. -/
structure NavKeyEffect where
  writes : HandlerWrites
  focusTarget : Option NavElem
  schedulesDeferredFocus : Bool
  deriving DecidableEq, Repr

/-- `handleNavItemKeyDown(e, idx, hasSubmenu)` on a top-level item:
Enter/ArrowDown on a parent opens its submenu and schedules a deferred
focus move; ArrowUp (submenu open) focuses the last submenu child;
ArrowRight/ArrowLeft focus the element at index `(idx±1) mod n` of the
`querySelectorAll("li > a, li > button")` list; Escape/Tab on the open
parent closes the submenu. -/
def handleNavItemKeyDown (links : List NavLink) (s : MenuState)
    (key : String) (idx : Nat) (hasSub : Bool) : NavKeyEffect :=
  if hasSub ∧ (key = "Enter" ∨ key = "ArrowDown") then
    ⟨⟨none, some (some idx)⟩, none, true⟩
  else if key = "ArrowUp" ∧ hasSub ∧ s.submenuOpen = some idx then
    ⟨noWrites, submenuLastChildAnchor links s.submenuOpen idx, false⟩
  else if key = "ArrowRight" then
    ⟨noWrites, (focusables links s.submenuOpen)[(idx + 1) % links.length]?,
     false⟩
  else if key = "ArrowLeft" then
    ⟨noWrites,
     (focusables links s.submenuOpen)[
       if idx = 0 then links.length - 1 else idx - 1]?,
     false⟩
  else if hasSub ∧ s.submenuOpen = some idx ∧ (key = "Escape" ∨ key = "Tab")
  then ⟨⟨none, some none⟩, none, false⟩
  else ⟨noWrites, none, false⟩

/-- The body of the deferred (`setTimeout`) callback scheduled by the
Enter/ArrowDown branch, evaluated at the submenu-open state current when
it fires: `firstSub && firstSub.focus()` — `none` means the DOM query
found no element and no focus change happens (no fault). -/
def deferredSubmenuFocus (links : List NavLink) (sub : Option Nat)
    (idx : Nat) : Option NavElem :=
  submenuFirstChildAnchor links sub idx

/-- Effect of `handleSubmenuKeyDown`: queued writes and a focus move. -/
structure SubKeyEffect where
  writes : HandlerWrites
  focusTarget : Option NavElem
  deriving DecidableEq, Repr

/-- `handleSubmenuKeyDown(e, idx, subLinksLen, subIdx)` on submenu child
`subIdx`: ArrowDown/ArrowUp move inside the submenu list with wrap-around
modulo `subLinksLen`; Escape/Tab close the submenu and focus the parent
top-level item. -/
def handleSubmenuKeyDown (links : List NavLink) (s : MenuState)
    (key : String) (idx subLinksLen subIdx : Nat) : SubKeyEffect :=
  if key = "ArrowDown" then
    ⟨noWrites,
     (submenuAnchors links s.submenuOpen idx)[(subIdx + 1) % subLinksLen]?⟩
  else if key = "ArrowUp" then
    ⟨noWrites,
     (submenuAnchors links s.submenuOpen idx)[
       if subIdx = 0 then subLinksLen - 1 else subIdx - 1]?⟩
  else if key = "Escape" ∨ key = "Tab" then
    ⟨⟨none, some none⟩, (focusables links s.submenuOpen)[idx]?⟩
  else ⟨noWrites, none⟩

/-- One Escape key press with focus on a submenu child: the event fires
`handleSubmenuKeyDown` on the anchor, then bubbles to the menu `ul`'s and
the `nav`'s `handleMainKeyDown`; all three read the same snapshot `s` and
their writes apply in order. -/
def escapePressInSubmenu (links : List NavLink) (s : MenuState)
    (idx subLinksLen subIdx : Nat) : MenuState :=
  let w1 := (handleSubmenuKeyDown links s "Escape" idx subLinksLen subIdx).writes
  let w2 := (handleMainKeyDown s "Escape").1
  applyWrites s (mergeWrites (mergeWrites w1 w2) w2)

/-- One Escape key press with focus elsewhere inside the nav (not on a
submenu child): `handleMainKeyDown` runs on the `ul` and again on the
`nav`, both from the same snapshot. -/
def escapePressInMenu (s : MenuState) : MenuState :=
  let w := (handleMainKeyDown s "Escape").1
  applyWrites s (mergeWrites w w)

/-! ## Focus containment guard -/

/-- What the focus-trap keydown listener does with an event. -/
inductive GuardAction where
  | focusFirst
  | focusLast
  | passThrough
  deriving DecidableEq, Repr

/-- `handleTrap` (the capturing keydown listener registered while
`mobileOpen`): on Tab, if either sentinel ref is null it returns (safe
no-op); Shift+Tab with focus on the first sentinel wraps to the last,
forward Tab with focus on the last sentinel wraps to the first; anything
else passes through. -/
def handleTrap (key : String) (shiftKey : Bool)
    (startMounted endMounted : Bool) (active : Option NavElem) :
    GuardAction :=
  if key = "Tab" then
    if ¬startMounted ∨ ¬endMounted then GuardAction.passThrough
    else if shiftKey ∧ active = some NavElem.sentinelStart then
      GuardAction.focusLast
    else if ¬shiftKey ∧ active = some NavElem.sentinelEnd then
      GuardAction.focusFirst
    else GuardAction.passThrough
  else GuardAction.passThrough

/-- The guard as installed by the effect: the capturing listener is only
registered while `mobileOpen` is true (`if (!mobileOpen) return;`), so
with the menu closed every key event passes through untouched. -/
def focusTrapGuard (mobileOpen : Bool) (key : String) (shiftKey : Bool)
    (startMounted endMounted : Bool) (active : Option NavElem) :
    GuardAction :=
  if mobileOpen then handleTrap key shiftKey startMounted endMounted active
  else GuardAction.passThrough

/-! ## Active-link matching -/

/-- `str.replace(/\/+$/, "")`: strip all trailing slashes. -/
def stripTrailingSlashes (s : String) : String :=
  ⟨(s.data.reverse.dropWhile (fun c => c = '/')).reverse⟩

/-- `currentPath`: `window.location.pathname` with trailing slashes
stripped, remapped to `"/"` when the result is empty. -/
def currentPathOf (raw : String) : String :=
  let p := stripTrailingSlashes raw
  if p = "" then "/" else p

/-- `linkPath`: the link's href with trailing slashes stripped, `""` when
the href is not a string. -/
def linkPathOf (href : Option String) : String :=
  match href with
  | some h => stripTrailingSlashes h
  | none => ""

/-- `isActive = linkPath === currentPath || (linkPath && linkPath !== "/"
&& currentPath.startsWith(linkPath))` (JS truthiness: a string is truthy
iff non-empty; `startsWith` is string-prefix). -/
def isActive (href : Option String) (raw : String) : Bool :=
  let lp := linkPathOf href
  let cp := currentPathOf raw
  (lp == cp) || (!(lp == "") && !(lp == "/") && lp.data.isPrefixOf cp.data)

/-- The active-link rule as the specification states it: after
trailing-slash normalization, active iff the href equals the current path
or the href is non-root (does not denote `/` after normalization) and is
a prefix of the current path. -/
def specActiveRule (href : Option String) (raw : String) : Bool :=
  let lp := linkPathOf href
  let cp := currentPathOf raw
  (lp == cp) ||
    (!(lp == stripTrailingSlashes "/") && lp.data.isPrefixOf cp.data)

/-! ## Sample data for concrete evaluations -/

/-- A small concrete link structure: one parent link with two children,
followed by a leaf link. -/
def sampleLinks : List NavLink :=
  [NavLink.mk "Products" none false
     [NavLink.mk "A" (some "/products/a") false [],
      NavLink.mk "B" (some "/products/b") false []],
   NavLink.mk "About" (some "/about") false []]

/-! ## Helper lemmas -/

theorem focusablesFrom_none_eq (links : List NavLink) :
    ∀ i : Nat, focusablesFrom none i links
      = (List.range' i links.length).map NavElem.topItem := by
  induction links with
  | nil => intro i; simp [focusablesFrom, List.range']
  | cons l rest ih =>
    intro i
    simp [focusablesFrom, ih, List.range'_succ]

theorem focusables_none_eq (links : List NavLink) :
    focusables links none = (List.range' 0 links.length).map NavElem.topItem :=
  focusablesFrom_none_eq links 0

theorem focusables_none_getElem (links : List NavLink) (k : Nat)
    (hk : k < links.length) :
    (focusables links none)[k]? = some (NavElem.topItem k) := by
  rw [focusables_none_eq, List.getElem?_map, List.getElem?_range' 0 1 hk]
  simp

theorem pred_mod_eq (idx n : Nat) (h : idx < n) :
    (idx + n - 1) % n = if idx = 0 then n - 1 else idx - 1 := by
  rcases Nat.eq_zero_or_pos idx with h0 | h0
  · subst h0
    rw [if_pos rfl, Nat.zero_add]
    exact Nat.mod_eq_of_lt (by omega)
  · rw [if_neg (by omega)]
    have he : idx + n - 1 = (idx - 1) + n := by omega
    rw [he, Nat.add_mod_right]
    exact Nat.mod_eq_of_lt (by omega)

theorem dropWhile_head_eq_false {α : Type} {p : α → Bool} :
    ∀ {l : List α} {a : α} {t : List α},
      List.dropWhile p l = a :: t → p a = false := by
  intro l
  induction l with
  | nil => intro a t h; simp [List.dropWhile] at h
  | cons x xs ih =>
    intro a t h
    rw [List.dropWhile_cons] at h
    by_cases hx : p x = true
    · rw [if_pos hx] at h; exact ih h
    · rw [if_neg hx] at h
      cases h
      simpa using hx

theorem stripTrailingSlashes_ne_root (s : String) :
    stripTrailingSlashes s ≠ "/" := by
  intro h
  have hd : (stripTrailingSlashes s).data = ['/'] := by rw [h]
  simp only [stripTrailingSlashes] at hd
  have hrev : s.data.reverse.dropWhile (fun c => c = '/') = ['/'] := by
    have := congrArg List.reverse hd
    simpa using this
  have hp := dropWhile_head_eq_false hrev
  simp at hp

theorem linkPathOf_ne_root (href : Option String) : linkPathOf href ≠ "/" := by
  cases href with
  | none =>
    intro h
    have : ("" : String).data = ("/" : String).data := by rw [← h]; rfl
    simp at this
  | some h => exact stripTrailingSlashes_ne_root h

theorem isActive_eq_spec (href : Option String) (raw : String) :
    isActive href raw = specActiveRule href raw := by
  have h2 : (linkPathOf href == "/") = false := by
    simp [linkPathOf_ne_root href]
  simp only [isActive, specActiveRule]
  rw [show stripTrailingSlashes "/" = "" from rfl, h2]
  simp

/-! ## Claim theorems -/

/-- Claim C1 (counterexample): the claim states that `openSubmenu(i)`
also sets `mobileOpen` to true.  It does not: from the closed state,
both the `openSubmenu` callback and the Enter keydown path leave
`mobileOpen` false. -/
theorem openSubmenu_mobileOpen_cex :
    ¬((openSubmenu initialState 0).mobileOpen = true ∧
      (applyWrites initialState
        (handleNavItemKeyDown sampleLinks initialState "Enter" 0
          true).writes).mobileOpen = true) := by
  decide

/-- Claim C1 (amended): `openSubmenu(i)` — whether invoked from the
parent toggle's click handler or from Enter/ArrowDown in
`handleNavItemKeyDown` — transitions `openSubmenuIndex` to `i` from any
state and leaves `mobileOpen` unchanged; opening a submenu while the
compact menu is closed leaves `mobileOpen = false`. -/
theorem openSubmenu_sets_index_only :
    (∀ (s : MenuState) (i : Nat), openSubmenu s i = ⟨s.mobileOpen, some i⟩) ∧
    (∀ (links : List NavLink) (s : MenuState) (i : Nat) (key : String),
      key = "Enter" ∨ key = "ArrowDown" →
      applyWrites s (handleNavItemKeyDown links s key i true).writes
        = ⟨s.mobileOpen, some i⟩ ∧
      (handleNavItemKeyDown links s key i true).schedulesDeferredFocus
        = true) := by
  refine ⟨fun s i => rfl, fun links s i key hk => ?_⟩
  rcases hk with hk | hk <;> subst hk <;>
    simp [handleNavItemKeyDown, applyWrites]

/-- Claim C1 witness: the amended theorem at a concrete input (Enter on
the parent at index 0 from the closed state). -/
theorem openSubmenu_sets_index_only_witness :
    applyWrites initialState
      (handleNavItemKeyDown sampleLinks initialState "Enter" 0 true).writes
      = ⟨false, some 0⟩ ∧
    (handleNavItemKeyDown sampleLinks initialState "Enter" 0
      true).schedulesDeferredFocus = true :=
  openSubmenu_sets_index_only.2 sampleLinks initialState 0 "Enter" (Or.inl rfl)

/-- Claim C2: a single Escape press while submenu `i` is open — whether
focus is on a submenu child (the anchor's handler plus the bubbling
`handleMainKeyDown`) or elsewhere in the nav — yields
`openSubmenuIndex = none` with `mobileOpen` unchanged; with no submenu
open and the menu open, Escape closes the menu and schedules focus back
to the hamburger trigger. -/
theorem escape_closes_submenu_before_menu :
    (∀ (links : List NavLink) (s : MenuState) (idx m j i : Nat),
      s.submenuOpen = some i →
      escapePressInSubmenu links s idx m j = ⟨s.mobileOpen, none⟩) ∧
    (∀ (s : MenuState) (i : Nat), s.submenuOpen = some i →
      escapePressInMenu s = ⟨s.mobileOpen, none⟩) ∧
    (∀ s : MenuState, s.submenuOpen = none → s.mobileOpen = true →
      escapePressInMenu s = ⟨false, none⟩ ∧
      (handleMainKeyDown s "Escape").2 = true) := by
  refine ⟨fun links s idx m j i h => ?_, fun s i h => ?_, fun s h1 h2 => ?_⟩
  · simp [escapePressInSubmenu, handleSubmenuKeyDown, handleMainKeyDown, h,
      mergeWrites, applyWrites]
  · simp [escapePressInMenu, handleMainKeyDown, h, mergeWrites, applyWrites]
  · constructor
    · simp [escapePressInMenu, handleMainKeyDown, h1, h2, mergeWrites,
        applyWrites]
    · simp [handleMainKeyDown, h1, h2]

/-- Claim C2 witness: Escape precedence at concrete states — from
`Open-Submenu(0)` with focus on submenu child 1 the press yields
`Open-NoSubmenu`; from `Open-NoSubmenu` it closes the menu and schedules
hamburger focus. -/
theorem escape_closes_submenu_before_menu_witness :
    escapePressInSubmenu sampleLinks ⟨true, some 0⟩ 0 2 1 = ⟨true, none⟩ ∧
    (escapePressInMenu ⟨true, none⟩ = ⟨false, none⟩ ∧
      (handleMainKeyDown ⟨true, none⟩ "Escape").2 = true) :=
  ⟨escape_closes_submenu_before_menu.1 sampleLinks ⟨true, some 0⟩ 0 2 1 0 rfl,
   escape_closes_submenu_before_menu.2.2 ⟨true, none⟩ rfl rfl⟩

/-- Claim C3 (counterexample): the claim states that activating any leaf
link from any state yields `Closed` (`mobileOpen = false`,
`openSubmenuIndex = none`).  A top-level leaf's click handler only sets
`mobileOpen` to false: from `Open-Submenu(1)` it leaves the submenu
index at 1. -/
theorem topLeaf_click_leaves_submenu_cex :
    ¬(topLevelLeafClick ⟨true, some 1⟩ = ⟨false, none⟩) := by
  decide

/-- Claim C3 (amended): activating a submenu child leaf yields `Closed`
from any state (in particular from `Open-Submenu(0)`); activating a
top-level leaf sets `mobileOpen = false` but leaves `openSubmenuIndex`
unchanged. -/
theorem leaf_activation_effects :
    (∀ s : MenuState, submenuLinkClick s = ⟨false, none⟩) ∧
    (∀ s : MenuState, topLevelLeafClick s = ⟨false, s.submenuOpen⟩) ∧
    submenuLinkClick ⟨true, some 0⟩ = ⟨false, none⟩ :=
  ⟨fun _ => rfl, fun _ => rfl, rfl⟩

/-- Claim C7: if `closeSubmenu()` runs before the deferred focus callback
scheduled by `openSubmenu(i)` fires, the callback's DOM query
(`[data-navsubmenu=i] li:first-child a`) finds no element and the
callback performs no focus change (and, being a guarded no-op, raises no
fault). -/
theorem deferred_focus_cancelled (links : List NavLink) (s : MenuState)
    (idx : Nat) :
    deferredSubmenuFocus links
      (closeSubmenu (openSubmenu s idx)).submenuOpen idx = none := by
  simp [deferredSubmenuFocus, submenuFirstChildAnchor, submenuAnchors,
    submenuRendered, closeSubmenu, openSubmenu]

/-- Claim C9: an absent, non-array or empty `links` value is replaced
wholesale by the fixed three-item default (Home `/`, About `/about`,
Contact `/contact`); any non-empty array is used unchanged. -/
theorem navLinks_fallback :
    navLinksOf LinksInput.absent = defaultNavLinks ∧
    navLinksOf LinksInput.notArray = defaultNavLinks ∧
    navLinksOf (LinksInput.arr []) = defaultNavLinks ∧
    (∀ (l : NavLink) (ls : List NavLink),
      navLinksOf (LinksInput.arr (l :: ls)) = l :: ls) ∧
    defaultNavLinks.map NavLink.label = ["Home", "About", "Contact"] ∧
    defaultNavLinks.map NavLink.href
      = [some "/", some "/about", some "/contact"] :=
  ⟨rfl, rfl, rfl, fun _ _ => rfl, rfl, rfl⟩

/-- Claim C10: the hamburger toggle and a top-level leaf click each write
only `mobileOpen` and leave `openSubmenuIndex` unchanged; consequently
the state `mobileOpen = false, openSubmenuIndex = i` is reachable — e.g.
by toggling the menu open and then running `openSubmenu(i)` followed by
the hamburger toggle. -/
theorem toggle_and_leaf_write_only_mobileOpen :
    (∀ s : MenuState, hamburgerToggle s = ⟨!s.mobileOpen, s.submenuOpen⟩) ∧
    (∀ s : MenuState, topLevelLeafClick s = ⟨false, s.submenuOpen⟩) ∧
    (∀ i : Nat,
      hamburgerToggle (openSubmenu (hamburgerToggle initialState) i)
        = ⟨false, some i⟩) :=
  ⟨fun _ => rfl, fun _ => rfl, fun _ => rfl⟩

/-- Claim C4 (counterexample): the claim states ArrowRight moves focus to
top-level item `(i+1) mod n` regardless of submenu state.  With the
submenu of parent 0 open, `querySelectorAll("li > a, li > button")` also
matches the submenu's own `li > a` anchors, so ArrowRight from item 0
lands on the first submenu child instead of top-level item 1. -/
theorem arrow_keys_submenu_open_cex :
    (handleNavItemKeyDown sampleLinks ⟨true, some 0⟩ "ArrowRight" 0
      true).focusTarget
      ≠ some (NavElem.topItem ((0 + 1) % sampleLinks.length)) := by
  decide

/-- Claim C4 (amended): while no submenu is open, for every top-level
index `i < n` ArrowRight focuses top-level item `(i+1) mod n` and
ArrowLeft focuses top-level item `(i-1+n) mod n` (so ArrowLeft from 0
focuses `n-1`); with a submenu open the indexing runs over the
document-order list that interleaves the open submenu's anchors. -/
theorem arrow_keys_wrap_top_level (links : List NavLink) (mo : Bool)
    (idx : Nat) (hasSub : Bool) (h : idx < links.length) :
    (handleNavItemKeyDown links ⟨mo, none⟩ "ArrowRight" idx
      hasSub).focusTarget
      = some (NavElem.topItem ((idx + 1) % links.length)) ∧
    (handleNavItemKeyDown links ⟨mo, none⟩ "ArrowLeft" idx
      hasSub).focusTarget
      = some (NavElem.topItem ((idx + links.length - 1) % links.length)) := by
  constructor
  · have hlt : (idx + 1) % links.length < links.length :=
      Nat.mod_lt _ (by omega)
    simp [handleNavItemKeyDown, focusables_none_getElem links _ hlt]
  · rw [pred_mod_eq idx links.length h]
    have hlt : (if idx = 0 then links.length - 1 else idx - 1)
        < links.length := by
      rcases Nat.eq_zero_or_pos idx with h0 | h0
      · subst h0; rw [if_pos rfl]; omega
      · rw [if_neg (by omega)]; omega
    simp [handleNavItemKeyDown, focusables_none_getElem links _ hlt]

/-- Claim C4 witness: on the three default links with no submenu open,
ArrowRight from 0 focuses item 1 and ArrowLeft from 0 wraps to item 2. -/
theorem arrow_keys_wrap_top_level_witness :
    (handleNavItemKeyDown defaultNavLinks ⟨false, none⟩ "ArrowRight" 0
      false).focusTarget = some (NavElem.topItem 1) ∧
    (handleNavItemKeyDown defaultNavLinks ⟨false, none⟩ "ArrowLeft" 0
      false).focusTarget = some (NavElem.topItem 2) :=
  arrow_keys_wrap_top_level defaultNavLinks false 0 false (by decide)

/-- Claim C5: inside the open submenu `idx` of length `m`, ArrowDown from
child `j` focuses child `(j+1) mod m` and ArrowUp focuses child
`(j-1+m) mod m`, wrapping at both ends. -/
theorem submenu_arrow_wrap (links : List NavLink) (mo : Bool)
    (idx m j : Nat) (l : NavLink) (hl : links[idx]? = some l)
    (hsub : l.hasSubmenu = true) (hm : l.children.length = m)
    (hj : j < m) :
    (handleSubmenuKeyDown links ⟨mo, some idx⟩ "ArrowDown" idx m
      j).focusTarget = some (NavElem.subItem idx ((j + 1) % m)) ∧
    (handleSubmenuKeyDown links ⟨mo, some idx⟩ "ArrowUp" idx m
      j).focusTarget = some (NavElem.subItem idx ((j + m - 1) % m)) := by
  have hren : submenuRendered links (some idx) idx := by
    refine ⟨?_, rfl⟩
    rw [hl]
    exact hsub
  have hanch : submenuAnchors links (some idx) idx
      = (List.range m).map (NavElem.subItem idx) := by
    rw [submenuAnchors, if_pos hren]
    simp [childCount, hl, hm]
  have hget : ∀ k, k < m →
      (submenuAnchors links (some idx) idx)[k]?
        = some (NavElem.subItem idx k) := by
    intro k hk
    rw [hanch, List.getElem?_map, List.getElem?_range hk]
    rfl
  constructor
  · have hlt : (j + 1) % m < m := Nat.mod_lt _ (by omega)
    simp [handleSubmenuKeyDown, hget _ hlt]
  · rw [pred_mod_eq j m hj]
    have hlt : (if j = 0 then m - 1 else j - 1) < m := by
      rcases Nat.eq_zero_or_pos j with h0 | h0
      · subst h0; rw [if_pos rfl]; omega
      · rw [if_neg (by omega)]; omega
    simp [handleSubmenuKeyDown, hget _ hlt]

/-- Claim C5 witness: in the two-child submenu of `sampleLinks`,
ArrowDown from the last child (j = 1) wraps to child 0 and ArrowUp from
child 0 wraps to the last child. -/
theorem submenu_arrow_wrap_witness :
    (handleSubmenuKeyDown sampleLinks ⟨true, some 0⟩ "ArrowDown" 0 2
      1).focusTarget = some (NavElem.subItem 0 0) ∧
    (handleSubmenuKeyDown sampleLinks ⟨true, some 0⟩ "ArrowUp" 0 2
      0).focusTarget = some (NavElem.subItem 0 1) :=
  ⟨(submenu_arrow_wrap sampleLinks true 0 2 1
      (NavLink.mk "Products" none false
        [NavLink.mk "A" (some "/products/a") false [],
         NavLink.mk "B" (some "/products/b") false []])
      rfl rfl rfl (by decide)).1,
   (submenu_arrow_wrap sampleLinks true 0 2 0
      (NavLink.mk "Products" none false
        [NavLink.mk "A" (some "/products/a") false [],
         NavLink.mk "B" (some "/products/b") false []])
      rfl rfl rfl (by decide)).2⟩

/-- Claim C6: the focus containment guard only acts while the menu is
open: forward Tab on the last sentinel wraps focus to the first
sentinel, Shift+Tab on the first sentinel wraps to the last, every other
Tab (or non-Tab) press passes through, the guard is inert when
`mobileOpen = false`, and a missing sentinel makes it a safe no-op. -/
theorem focus_trap_guard_correct :
    (focusTrapGuard true "Tab" false true true (some NavElem.sentinelEnd)
      = GuardAction.focusFirst) ∧
    (focusTrapGuard true "Tab" true true true (some NavElem.sentinelStart)
      = GuardAction.focusLast) ∧
    (∀ (key : String) (shift sm em : Bool) (active : Option NavElem),
      focusTrapGuard false key shift sm em active
        = GuardAction.passThrough) ∧
    (∀ (key : String) (shift sm em : Bool) (active : Option NavElem),
      sm = false ∨ em = false →
      focusTrapGuard true key shift sm em active
        = GuardAction.passThrough) ∧
    (∀ (sm em : Bool) (active : Option NavElem),
      active ≠ some NavElem.sentinelEnd →
      focusTrapGuard true "Tab" false sm em active
        = GuardAction.passThrough) ∧
    (∀ (sm em : Bool) (active : Option NavElem),
      active ≠ some NavElem.sentinelStart →
      focusTrapGuard true "Tab" true sm em active
        = GuardAction.passThrough) ∧
    (∀ (key : String) (shift sm em : Bool) (active : Option NavElem),
      key ≠ "Tab" →
      focusTrapGuard true key shift sm em active
        = GuardAction.passThrough) := by
  refine ⟨rfl, rfl, fun key shift sm em active => rfl,
    fun key shift sm em active h => ?_,
    fun sm em active h => ?_, fun sm em active h => ?_,
    fun key shift sm em active h => ?_⟩
  · rcases h with h | h <;> subst h <;>
      simp [focusTrapGuard, handleTrap]
  · cases sm <;> cases em <;> simp [focusTrapGuard, handleTrap, h]
  · cases sm <;> cases em <;> simp [focusTrapGuard, handleTrap, h]
  · simp [focusTrapGuard, handleTrap, h]

/-- Claim C6 witness: the guard at concrete inputs — forward Tab on the
last sentinel wraps to the first, Shift+Tab on the first wraps to the
last, a closed menu passes through, a missing sentinel is a no-op, and a
Tab with focus elsewhere passes through. -/
theorem focus_trap_guard_correct_witness :
    focusTrapGuard true "Tab" false true true (some NavElem.sentinelEnd)
      = GuardAction.focusFirst ∧
    focusTrapGuard true "Tab" true true true (some NavElem.sentinelStart)
      = GuardAction.focusLast ∧
    focusTrapGuard false "Tab" false true true (some NavElem.sentinelEnd)
      = GuardAction.passThrough ∧
    focusTrapGuard true "Tab" false false true (some NavElem.sentinelEnd)
      = GuardAction.passThrough ∧
    focusTrapGuard true "Tab" false true true (some (NavElem.topItem 0))
      = GuardAction.passThrough :=
  ⟨focus_trap_guard_correct.1,
   focus_trap_guard_correct.2.1,
   focus_trap_guard_correct.2.2.1 "Tab" false true true
     (some NavElem.sentinelEnd),
   focus_trap_guard_correct.2.2.2.1 "Tab" false false true
     (some NavElem.sentinelEnd) (Or.inl rfl),
   focus_trap_guard_correct.2.2.2.2.1 true true (some (NavElem.topItem 0))
     (by decide)⟩

/-- Claim C8: the code's active-link computation agrees, for every href
and raw path, with the specified rule (equality after trailing-slash
normalization, or a non-root normalized href that is a prefix of the
normalized current path); in particular `/products` is active at
`/products/a` while `/` is not. -/
theorem active_link_matching :
    (∀ (href : Option String) (raw : String),
      isActive href raw = specActiveRule href raw) ∧
    isActive (some "/products") "/products/a" = true ∧
    isActive (some "/") "/products/a" = false :=
  ⟨isActive_eq_spec, by decide, by decide⟩
